import Mathlib

/-!
Verification of the task-tracker backend (`backend/app/app.py`).

The Python service is a CRUD layer over a task table.  We embed it
shallowly: the database is a `Store` (a list of task rows plus the next
primary key), timestamps are naturals, calendar dates are integers, and
every endpoint body becomes a pure function returning `Except HTTPError`
(modelling `fastapi.HTTPException` with its status code and detail).
Python truthiness tests (`if search:`, `if priority:`) are modelled
explicitly: `some ""` is falsy.
-/

namespace TaskTracker

/-- Models `fastapi.HTTPException(status_code, detail)`. -/
structure HTTPError where
  status : Nat
  detail : String
deriving Repr, DecidableEq

def exceptDecEq {ε α : Type} [DecidableEq ε] [DecidableEq α] :
    (x y : Except ε α) → Decidable (x = y)
  | .ok a, .ok b =>
    if h : a = b then .isTrue (by rw [h]) else .isFalse (by intro hc; cases hc; exact h rfl)
  | .ok _, .error _ => .isFalse (by intro hc; cases hc)
  | .error _, .ok _ => .isFalse (by intro hc; cases hc)
  | .error e, .error f =>
    if h : e = f then .isTrue (by rw [h]) else .isFalse (by intro hc; cases hc; exact h rfl)

instance {ε α : Type} [DecidableEq ε] [DecidableEq α] : DecidableEq (Except ε α) :=
  exceptDecEq

/-- The hard-coded `TEAM_MEMBERS` list from the source, as (id, name) pairs. -/
def TEAM_MEMBERS : List (Nat × String) :=
  [(1, "Harry"), (2, "John"), (3, "Peter"), (4, "Tom")]

/-- `user_exists(user_id)`: `None` gives `False`; otherwise membership in `TEAM_MEMBERS`. -/
def user_exists (user_id : Option Nat) : Bool :=
  match user_id with
  | none => false
  | some uid => TEAM_MEMBERS.any (fun u => u.1 == uid)

/-- `ALLOWED_PRIORITIES = {"low", "medium", "high"}`. -/
def ALLOWED_PRIORITIES : List String := ["low", "medium", "high"]

/-- Python `str.lower()`, character by character (the basic-latin case, which
covers every string the priority check compares). -/
def pyLower (s : String) : String := ⟨s.data.map Char.toLower⟩

/-- `validate_priority(value)`: `None` gives the default `"medium"`; otherwise
lower-case and require membership in `ALLOWED_PRIORITIES`, else HTTP 400. -/
def validate_priority (value : Option String) : Except HTTPError String :=
  match value with
  | none => .ok "medium"
  | some v =>
    let val := pyLower v
    if ALLOWED_PRIORITIES.contains val then .ok val
    else .error ⟨400, "priority must be one of low|medium|high"⟩

/-- Python `str.strip()` on the character list: drop whitespace on both ends. -/
def stripChars (l : List Char) : List Char :=
  List.rdropWhile Char.isWhitespace (l.dropWhile Char.isWhitespace)

/-- Python `s.strip()`. -/
def pyStrip (s : String) : String := ⟨stripChars s.data⟩

/-- The `Task` table row (`class Task(SQLModel, table=True)`).  `id` is the
primary key assigned by the store; dates are day numbers, timestamps naturals. -/
structure Task where
  id : Nat
  title : String
  description : String
  completed : Bool := false
  assignee_id : Option Nat := none
  priority : String := "medium"
  due_date : Option Int := none
  created_at : Nat
  updated_at : Nat
deriving Repr, DecidableEq

/-- Request schema `TaskCreate`: `title` required, `description` defaults to `""`,
`priority` is a plain string defaulting to `"medium"`. -/
structure TaskCreate where
  title : String
  description : String := ""
  assignee_id : Option Nat := none
  priority : String := "medium"
  due_date : Option Int := none
deriving Repr, DecidableEq

/-- Request schema `TaskUpdate`: every field `Optional[...] = None`.  This is what
the endpoint sees after pydantic parsing, so `none` covers both an absent field
and an explicit JSON `null`. -/
structure TaskUpdate where
  title : Option String := none
  description : Option String := none
  assignee_id : Option Nat := none
  completed : Option Bool := none
  priority : Option String := none
  due_date : Option Int := none
deriving Repr, DecidableEq

/-- A field of the raw JSON PATCH body: missing, explicit `null`, or a value. -/
inductive RawField (α : Type) where
  | absent : RawField α
  | nullv : RawField α
  | value : α → RawField α
deriving Repr, DecidableEq

/-- Pydantic parsing of an `Optional[...] = None` field: both an absent field and
an explicit `null` become `None`. -/
def RawField.toOption {α : Type} : RawField α → Option α
  | .absent => none
  | .nullv => none
  | .value a => some a

/-- The raw JSON PATCH body, before pydantic collapses `null` into `None`. -/
structure RawUpdate where
  title : RawField String := .absent
  description : RawField String := .absent
  assignee_id : RawField Nat := .absent
  completed : RawField Bool := .absent
  priority : RawField String := .absent
  due_date : RawField Int := .absent
deriving Repr, DecidableEq

/-- Pydantic validation of the PATCH body into a `TaskUpdate`. -/
def parseUpdate (r : RawUpdate) : TaskUpdate :=
  { title := r.title.toOption
    description := r.description.toOption
    assignee_id := r.assignee_id.toOption
    completed := r.completed.toOption
    priority := r.priority.toOption
    due_date := r.due_date.toOption }

/-- The task table: rows plus the next auto-increment primary key. -/
structure Store where
  tasks : List Task := []
  nextId : Nat := 1
deriving Repr, DecidableEq

/-- `session.get(Task, task_id)`: look the row up by primary key. -/
def findTask (s : Store) (task_id : Nat) : Option Task :=
  s.tasks.find? (fun t => t.id == task_id)

/-- `create_task` (`POST /tasks`): trim the title (400 if empty), check
`user_exists` on the payload's `assignee_id` unconditionally (400 if false),
validate priority, then insert the row with `completed = False` and
`created_at = updated_at = now`.  Returns the generated id. -/
def create_task (s : Store) (payload : TaskCreate) (now : Nat) :
    Except HTTPError (Store × Nat) :=
  if pyStrip payload.title = "" then .error ⟨400, "title is required"⟩
  else if !user_exists payload.assignee_id then .error ⟨400, "assignee_id is invalid"⟩
  else
    match validate_priority (some payload.priority) with
    | .error e => .error e
    | .ok priority =>
      .ok ({ tasks := s.tasks ++
              [{ id := s.nextId
                 title := pyStrip payload.title
                 description := pyStrip payload.description
                 completed := false
                 assignee_id := payload.assignee_id
                 priority := priority
                 due_date := payload.due_date
                 created_at := now
                 updated_at := now }]
             nextId := s.nextId + 1 }, s.nextId)

/-- `update_task` step for `payload.title`: if present, strip and require non-empty. -/
def applyTitle (payload : TaskUpdate) (task : Task) : Except HTTPError Task :=
  match payload.title with
  | none => .ok task
  | some v =>
    let title := pyStrip v
    if title = "" then .error ⟨400, "title cannot be empty"⟩
    else .ok { task with title := title }

/-- `update_task` step for `payload.description`: if present, assign stripped. -/
def applyDescription (payload : TaskUpdate) (task : Task) : Task :=
  match payload.description with
  | none => task
  | some v => { task with description := pyStrip v }

/-- `update_task` step for `payload.assignee_id`: if present, require `user_exists`. -/
def applyAssignee (payload : TaskUpdate) (task : Task) : Except HTTPError Task :=
  match payload.assignee_id with
  | none => .ok task
  | some a =>
    if !user_exists (some a) then .error ⟨400, "assignee_id is invalid"⟩
    else .ok { task with assignee_id := some a }

/-- `update_task` step for `payload.completed`: if present, assign. -/
def applyCompleted (payload : TaskUpdate) (task : Task) : Task :=
  match payload.completed with
  | none => task
  | some c => { task with completed := c }

/-- `update_task` step for `payload.priority`: if present, validate then assign. -/
def applyPriority (payload : TaskUpdate) (task : Task) : Except HTTPError Task :=
  match payload.priority with
  | none => .ok task
  | some v =>
    match validate_priority (some v) with
    | .error e => .error e
    | .ok pr => .ok { task with priority := pr }

/-- `update_task` step for `payload.due_date`: if present, assign. -/
def applyDueDate (payload : TaskUpdate) (task : Task) : Task :=
  match payload.due_date with
  | none => task
  | some d => { task with due_date := some d }

/-- `update_task` (`PATCH /tasks/{task_id}`): 404 if the row is missing, then the
field-by-field mutation of the session-attached object in source order
(title, description, assignee_id, completed, priority, due_date), then
`updated_at = now`, then `session.commit()` writes the row back.  A raised
`HTTPException` leaves the session uncommitted, so nothing is persisted. -/
def update_task (s : Store) (task_id : Nat) (payload : TaskUpdate) (now : Nat) :
    Except HTTPError Store :=
  match findTask s task_id with
  | none => .error ⟨404, "Task not found"⟩
  | some task0 =>
    match applyTitle payload task0 with
    | .error e => .error e
    | .ok task1 =>
      match applyAssignee payload (applyDescription payload task1) with
      | .error e => .error e
      | .ok task3 =>
        match applyPriority payload (applyCompleted payload task3) with
        | .error e => .error e
        | .ok task5 =>
          .ok { s with tasks := s.tasks.map (fun t =>
            if t.id == task_id then { applyDueDate payload task5 with updated_at := now } else t) }

/-- The PATCH handler's effect on the stored table: on an exception the session
closes without commit, so the store is unchanged. -/
def run_update (s : Store) (task_id : Nat) (payload : TaskUpdate) (now : Nat) : Store :=
  match update_task s task_id payload now with
  | .ok s2 => s2
  | .error _ => s

/-- The call raised an `HTTPException` with status 400. -/
def failsWith400 {α : Type} : Except HTTPError α → Prop
  | .error e => e.status = 400
  | .ok _ => False

/-- `update_task` on the raw JSON body: pydantic parsing then the endpoint. -/
def update_task_raw (s : Store) (task_id : Nat) (r : RawUpdate) (now : Nat) :
    Except HTTPError Store :=
  update_task s task_id (parseUpdate r) now

/-- `delete_task` (`DELETE /tasks/{task_id}`): 404 if missing, else remove the row. -/
def delete_task (s : Store) (task_id : Nat) : Except HTTPError Store :=
  match findTask s task_id with
  | none => .error ⟨404, "Task not found"⟩
  | some _ => .ok { s with tasks := s.tasks.filter (fun t => !(t.id == task_id)) }

/-- SQL `column.contains(sub)`: substring containment. -/
def strContains (hay sub : String) : Bool := decide (List.IsInfix sub.data hay.data)

/-- SQL `Task.due_date < today` under three-valued logic: NULL compares to false. -/
def dueLT (o : Option Int) (x : Int) : Bool :=
  match o with
  | none => false
  | some d => decide (d < x)

/-- SQL `Task.due_date > today` under three-valued logic: NULL compares to false. -/
def dueGT (o : Option Int) (x : Int) : Bool :=
  match o with
  | none => false
  | some d => decide (x < d)

/-- SQL `Task.due_date == today` under three-valued logic: NULL compares to false. -/
def dueEQ (o : Option Int) (x : Int) : Bool :=
  match o with
  | none => false
  | some d => d == x

/-- The `search` where-clause: skipped when the parameter is falsy
(`None` or `""`), else title or description containment. -/
def filterSearch (search : Option String) (rows : List Task) : List Task :=
  match search with
  | none => rows
  | some s =>
    if s = "" then rows
    else rows.filter (fun t => strContains t.title s || strContains t.description s)

/-- The `status` where-clause: `"complete"` and `"incomplete"` filter on
`completed`; any other value (including absent) applies no filter. -/
def filterStatus (status : Option String) (rows : List Task) : List Task :=
  if status = some "complete" then rows.filter (fun t => t.completed == true)
  else if status = some "incomplete" then rows.filter (fun t => t.completed == false)
  else rows

/-- The `assignee_id` where-clause: applied whenever the parameter is not `None`. -/
def filterAssignee (assignee_id : Option Nat) (rows : List Task) : List Task :=
  match assignee_id with
  | none => rows
  | some aid => rows.filter (fun t => t.assignee_id == some aid)

/-- The `priority` where-clause: skipped when the parameter is falsy
(`None` or `""`); otherwise `validate_priority` may abort the request with 400,
else filter on the normalized value. -/
def filterPriority (priority : Option String) (rows : List Task) :
    Except HTTPError (List Task) :=
  match priority with
  | none => .ok rows
  | some p =>
    if p = "" then .ok rows
    else
      match validate_priority (some p) with
      | .error e => .error e
      | .ok pr => .ok (rows.filter (fun t => t.priority == pr))

/-- The `due` where-clauses: `"overdue"`/`"upcoming"` chain an `is_not(None)`
test with a strict comparison against `today`; `"today"` is an equality test;
any other value applies no filter. -/
def filterDue (due : Option String) (today : Int) (rows : List Task) : List Task :=
  if due = some "overdue" then
    (rows.filter (fun t => t.due_date.isSome)).filter (fun t => dueLT t.due_date today)
  else if due = some "today" then
    rows.filter (fun t => dueEQ t.due_date today)
  else if due = some "upcoming" then
    (rows.filter (fun t => t.due_date.isSome)).filter (fun t => dueGT t.due_date today)
  else rows

/-- `order_by(Task.completed.asc(), Task.created_at.desc())`: `a` sorts no
later than `b` when `a` is incomplete and `b` complete, or both have the same
completion flag and `a` was created no earlier than `b`. -/
def taskOrd (a b : Task) : Prop :=
  (a.completed = false ∧ b.completed = true) ∨
  (a.completed = b.completed ∧ b.created_at ≤ a.created_at)

instance taskOrd.instDecidableRel : DecidableRel taskOrd := fun a b => by
  unfold taskOrd
  infer_instance

instance taskOrd.instIsTotal : IsTotal Task taskOrd := by
  constructor
  intro a b
  unfold taskOrd
  cases ha : a.completed <;> cases hb : b.completed <;> simp <;> omega

instance taskOrd.instIsTrans : IsTrans Task taskOrd := by
  constructor
  intro a b c hab hbc
  unfold taskOrd at hab hbc ⊢
  rcases hab with ⟨ha1, hb1⟩ | ⟨he1, hle1⟩
  · rcases hbc with ⟨hb2, hc2⟩ | ⟨he2, hle2⟩
    · rw [hb1] at hb2
      cases hb2
    · exact Or.inl ⟨ha1, he2.symm.trans hb1⟩
  · rcases hbc with ⟨hb2, hc2⟩ | ⟨he2, hle2⟩
    · exact Or.inl ⟨he1.trans hb2, hc2⟩
    · exact Or.inr ⟨he1.trans he2, hle2.trans hle1⟩

/-- `list_tasks` (`GET /tasks`), down to the ordered rows: `today` is resolved
once at entry and every filter row is compared against it; the where-clauses
are applied in source order, then the rows are sorted by `taskOrd`. -/
def list_tasks_rows (s : Store) (today : Int) (search status : Option String)
    (assignee_id : Option Nat) (priority : Option String) (due : Option String) :
    Except HTTPError (List Task) :=
  match filterPriority priority (filterAssignee assignee_id (filterStatus status (filterSearch search s.tasks))) with
  | .error e => .error e
  | .ok rows => .ok (List.insertionSort taskOrd (filterDue due today rows))

/-- `user_map.get(aid, "Unassigned")`. -/
def user_map_get (aid : Nat) : String :=
  match TEAM_MEMBERS.find? (fun u => u.1 == aid) with
  | none => "Unassigned"
  | some u => u.2

/-- The shaped response row of `GET /tasks`. -/
structure TaskView where
  id : Nat
  title : String
  description : String
  completed : Bool
  assignee_id : Option Nat
  assignee_name : String
  priority : String
  due_date : Option Int
  created_at : Nat
  updated_at : Nat
deriving Repr, DecidableEq

/-- Response shaping: `user_map.get(t.assignee_id, "Unassigned") if t.assignee_id
else "Unassigned"` — note the Python truthiness test, under which id `0` is
also rendered `"Unassigned"`. -/
def shapeTask (t : Task) : TaskView :=
  { id := t.id
    title := t.title
    description := t.description
    completed := t.completed
    assignee_id := t.assignee_id
    assignee_name :=
      match t.assignee_id with
      | none => "Unassigned"
      | some aid => if aid = 0 then "Unassigned" else user_map_get aid
    priority := t.priority
    due_date := t.due_date
    created_at := t.created_at
    updated_at := t.updated_at }

/-- `list_tasks` (`GET /tasks`): the ordered rows, shaped. -/
def list_tasks (s : Store) (today : Int) (search status : Option String)
    (assignee_id : Option Nat) (priority : Option String) (due : Option String) :
    Except HTTPError (List TaskView) :=
  match list_tasks_rows s today search status assignee_id priority due with
  | .error e => .error e
  | .ok rows => .ok (rows.map shapeTask)

/-- The row written back by a successful PATCH, as a function of the stored row
and the parsed body: each field is either `none` (stored value kept) or `some`
(validated value applied); `updated_at` is set to `now` unconditionally and
`id` and `created_at` are never touched. -/
def appliedTask (task : Task) (p : TaskUpdate) (now : Nat) : Task :=
  { id := task.id
    title := match p.title with | none => task.title | some v => pyStrip v
    description := match p.description with | none => task.description | some v => pyStrip v
    completed := match p.completed with | none => task.completed | some c => c
    assignee_id := match p.assignee_id with | none => task.assignee_id | some a => some a
    priority := match p.priority with | none => task.priority | some v => pyLower v
    due_date := match p.due_date with | none => task.due_date | some d => some d
    created_at := task.created_at
    updated_at := now }

/-- Replace an explicit `null` wire field by an absent one. -/
def RawField.nullToAbsent {α : Type} : RawField α → RawField α
  | .nullv => .absent
  | x => x

/-- The PATCH body with every explicit `null` field removed. -/
def nullsToAbsent (r : RawUpdate) : RawUpdate :=
  { title := r.title.nullToAbsent
    description := r.description.nullToAbsent
    assignee_id := r.assignee_id.nullToAbsent
    completed := r.completed.nullToAbsent
    priority := r.priority.nullToAbsent
    due_date := r.due_date.nullToAbsent }

/-- A present title that is empty after trimming. -/
def titleBad (p : TaskUpdate) : Prop :=
  ∃ v, p.title = some v ∧ pyStrip v = ""

/-- A present assignee id that is not in the directory. -/
def assigneeBad (p : TaskUpdate) : Prop :=
  ∃ a, p.assignee_id = some a ∧ user_exists (some a) = false

/-- A present priority that is unrecognized after lower-casing. -/
def priorityBad (p : TaskUpdate) : Prop :=
  ∃ v, p.priority = some v ∧ ALLOWED_PRIORITIES.contains (pyLower v) = false

/-- The `search` where-clause as a row predicate. -/
def searchPred (search : Option String) (t : Task) : Bool :=
  match search with
  | none => true
  | some s => if s = "" then true else strContains t.title s || strContains t.description s

/-- The `status` where-clause as a row predicate. -/
def statusPred (status : Option String) (t : Task) : Bool :=
  if status = some "complete" then t.completed == true
  else if status = some "incomplete" then t.completed == false
  else true

/-- The `assignee_id` where-clause as a row predicate. -/
def assigneePred (assignee_id : Option Nat) (t : Task) : Bool :=
  match assignee_id with
  | none => true
  | some aid => t.assignee_id == some aid

/-- The `priority` where-clause as a row predicate (after successful validation). -/
def priorityPred (priority : Option String) (t : Task) : Bool :=
  match priority with
  | none => true
  | some p => if p = "" then true else t.priority == pyLower p

/-- The `due` where-clause as a row predicate. -/
def duePred (due : Option String) (today : Int) (t : Task) : Bool :=
  if due = some "overdue" then t.due_date.isSome && dueLT t.due_date today
  else if due = some "today" then dueEQ t.due_date today
  else if due = some "upcoming" then t.due_date.isSome && dueGT t.due_date today
  else true

/-- The conjunction of all five filter predicates. -/
def rowPred (today : Int) (search status : Option String) (assignee_id : Option Nat)
    (priority : Option String) (due : Option String) (t : Task) : Bool :=
  duePred due today t &&
    (priorityPred priority t && (assigneePred assignee_id t && (statusPred status t && searchPred search t)))

/-- A service state: the stored table plus the wall-clock time of the last
applied mutating call. -/
structure AppState where
  store : Store
  clock : Nat
deriving Repr, DecidableEq

/-- One successful mutating API call; the wall clock never runs backwards. -/
inductive Step : AppState → AppState → Prop where
  | create (st : AppState) (payload : TaskCreate) (now : Nat) (s2 : Store) (newId : Nat) :
      st.clock ≤ now → create_task st.store payload now = .ok (s2, newId) →
      Step st ⟨s2, now⟩
  | update (st : AppState) (task_id : Nat) (payload : TaskUpdate) (now : Nat) (s2 : Store) :
      st.clock ≤ now → update_task st.store task_id payload now = .ok s2 →
      Step st ⟨s2, now⟩
  | delete (st : AppState) (task_id : Nat) (s2 : Store) :
      delete_task st.store task_id = .ok s2 →
      Step st ⟨s2, st.clock⟩

/-- States reachable from the fresh service (empty table, clock 0). -/
inductive Reach : AppState → Prop where
  | init : Reach ⟨{ tasks := [], nextId := 1 }, 0⟩
  | step (a b : AppState) : Reach a → Step a b → Reach b

/-- The four per-row invariants of the data model: title non-empty and not
whitespace-only, no dangling assignee, allowed priority, and
`updated_at ≥ created_at`. -/
def TaskInv (t : Task) : Prop :=
  t.title ≠ "" ∧ t.title.data.all Char.isWhitespace = false ∧
  (t.assignee_id = none ∨ user_exists t.assignee_id = true) ∧
  ALLOWED_PRIORITIES.contains t.priority = true ∧
  t.created_at ≤ t.updated_at

/-- The induction invariant: every stored row satisfies `TaskInv` and was
created no later than the state's clock. -/
def StInv (st : AppState) : Prop :=
  ∀ t, t ∈ st.store.tasks → TaskInv t ∧ t.created_at ≤ st.clock

/-- A stored fixture row used in the concrete instantiations below. -/
def demoTask : Task :=
  { id := 1
    title := "Quarterly report"
    description := "write the quarterly report"
    completed := true
    assignee_id := some 1
    priority := "medium"
    due_date := some 10
    created_at := 2
    updated_at := 2 }

/-- A one-row table holding `demoTask`. -/
def demoStore : Store := { tasks := [demoTask], nextId := 2 }

/-- A PATCH body whose only field is an explicit `null` due date. -/
def rawNullDue : RawUpdate := { due_date := .nullv }

/-- Fixture rows for the ordering example: A incomplete created first,
B complete created second, C incomplete created third. -/
def taskA : Task :=
  { id := 1, title := "A", description := "", completed := false
    assignee_id := some 1, priority := "medium", due_date := none
    created_at := 10, updated_at := 10 }

def taskB : Task :=
  { id := 2, title := "B", description := "", completed := true
    assignee_id := some 2, priority := "medium", due_date := none
    created_at := 20, updated_at := 20 }

def taskC : Task :=
  { id := 3, title := "C", description := "", completed := false
    assignee_id := some 3, priority := "medium", due_date := none
    created_at := 30, updated_at := 30 }

/-- The three-row table [A, B, C] in creation order. -/
def storeABC : Store := { tasks := [taskA, taskB, taskC], nextId := 4 }

/-- A PATCH body whose only field sets `completed` to the falsy value `false`. -/
def rawToggle : RawUpdate := { completed := .value false }

/-- The store after toggling `demoTask` to incomplete at time 9. -/
def demoStoreToggled : Store :=
  { tasks := [{ demoTask with completed := false, updated_at := 9 }], nextId := 2 }

/-- The payload of the create call used in the reachability witness. -/
def demoCreatePayload : TaskCreate :=
  { title := "  Demo  ", assignee_id := some 2, priority := "HIGH" }

/-- The row that creating `demoCreatePayload` at time 5 stores. -/
def demoCreated : Task :=
  { id := 1, title := "Demo", description := "", completed := false
    assignee_id := some 2, priority := "high", due_date := none
    created_at := 5, updated_at := 5 }

/-- Rows for the due-bucket witness: one overdue, one due today, one undated. -/
def taskPast : Task :=
  { id := 1, title := "P", description := "", completed := false
    assignee_id := some 1, priority := "medium", due_date := some 5
    created_at := 1, updated_at := 1 }

def taskToday : Task :=
  { id := 2, title := "T", description := "", completed := false
    assignee_id := some 1, priority := "medium", due_date := some 10
    created_at := 2, updated_at := 2 }

def taskNoDue : Task :=
  { id := 3, title := "N", description := "", completed := false
    assignee_id := some 1, priority := "medium", due_date := none
    created_at := 3, updated_at := 3 }

/-- The three-row table for the due-bucket witness. -/
def storeDue : Store := { tasks := [taskPast, taskToday, taskNoDue], nextId := 4 }

/-! ### Basic lemmas about the validation helpers -/

theorem validate_priority_ok_mem (v : Option String) (r : String)
    (h : validate_priority v = .ok r) : ALLOWED_PRIORITIES.contains r = true := by
  cases v with
  | none =>
    simp only [validate_priority] at h
    cases h
    decide
  | some p =>
    simp only [validate_priority] at h
    split at h
    · cases h
      assumption
    · cases h

theorem validate_priority_ok_toLower (p : String) (r : String)
    (h : validate_priority (some p) = .ok r) : r = pyLower p := by
  simp only [validate_priority] at h
  split at h
  · cases h
    rfl
  · cases h

theorem validate_priority_error_of_not_mem (p : String)
    (h : ALLOWED_PRIORITIES.contains (pyLower p) = false) :
    validate_priority (some p) = .error ⟨400, "priority must be one of low|medium|high"⟩ := by
  simp only [validate_priority]
  rw [h]
  rfl

/-- C7: `validate_priority(None)` returns `"medium"`; otherwise the value is
lower-cased and returned when it is one of low|medium|high, and the call fails
with HTTP 400 otherwise; concretely `"HIGH"` normalizes to `"high"` and
`"urgent"` is rejected. -/
theorem validate_priority_spec :
    validate_priority none = .ok "medium" ∧
    (∀ v : String, ALLOWED_PRIORITIES.contains (pyLower v) = true →
      validate_priority (some v) = .ok (pyLower v)) ∧
    (∀ v : String, ALLOWED_PRIORITIES.contains (pyLower v) = false →
      validate_priority (some v) = .error ⟨400, "priority must be one of low|medium|high"⟩) ∧
    validate_priority (some "HIGH") = .ok "high" ∧
    validate_priority (some "urgent") = .error ⟨400, "priority must be one of low|medium|high"⟩ := by
  refine ⟨rfl, ?_, ?_, by decide, by decide⟩
  · intro v hv
    simp only [validate_priority]
    rw [hv]
    rfl
  · intro v hv
    exact validate_priority_error_of_not_mem v hv

/-- Witness for C7 at the concrete input `"Low"`. -/
theorem validate_priority_spec_witness :
    ALLOWED_PRIORITIES.contains (pyLower "Low") = true ∧
    validate_priority (some "Low") = .ok (pyLower "Low") :=
  ⟨by decide, validate_priority_spec.2.1 "Low" (by decide)⟩

/-- C1: the spec says the assignee-existence check applies only when
`assignee_id` is provided, but `create_task` calls `user_exists` on the payload
unconditionally and `user_exists(None)` is `False`, so a create request with a
valid title, a valid priority and an absent `assignee_id` is rejected with
HTTP 400 "assignee_id is invalid" instead of succeeding. -/
theorem create_absent_assignee_rejected :
    pyStrip "Fix login bug" ≠ "" ∧
    (TaskCreate.mk "Fix login bug" "" none "medium" none).assignee_id = none ∧
    validate_priority (some "medium") = .ok "medium" ∧
    create_task { tasks := [], nextId := 1 } (TaskCreate.mk "Fix login bug" "" none "medium" none) 3 =
      .error ⟨400, "assignee_id is invalid"⟩ := by
  refine ⟨by decide, rfl, rfl, by decide⟩

/-! ### The list pipeline: error characterization -/

theorem list_tasks_rows_error_iff (s : Store) (today : Int) (se st : Option String)
    (aid : Option Nat) (pr : Option String) (du : Option String) :
    (∃ e, list_tasks_rows s today se st aid pr du = .error e ∧ e.status = 400) ↔
    (∃ p, pr = some p ∧ p ≠ "" ∧ ALLOWED_PRIORITIES.contains (pyLower p) = false) := by
  cases pr with
  | none => simp [list_tasks_rows, filterPriority]
  | some p =>
    by_cases hp : p = ""
    · subst hp
      simp [list_tasks_rows, filterPriority]
    · by_cases hm : ALLOWED_PRIORITIES.contains (pyLower p) = true
      · constructor
        · rintro ⟨e, he, -⟩
          have hv : validate_priority (some p) = .ok (pyLower p) := by
            simp only [validate_priority]
            rw [hm]
            rfl
          simp [list_tasks_rows, filterPriority, hp, hv] at he
        · rintro ⟨q, hq, -, hmem⟩
          cases hq
          rw [hm] at hmem
          cases hmem
      · constructor
        · intro _
          exact ⟨p, rfl, hp, by simpa using hm⟩
        · intro _
          refine ⟨⟨400, "priority must be one of low|medium|high"⟩, ?_, rfl⟩
          simp [list_tasks_rows, filterPriority, hp,
            validate_priority_error_of_not_mem p (by simpa using hm)]

/-- C5 counterexample: the priority filter value `""` is supplied and is
unrecognized after lower-casing, yet the list call succeeds — the claimed
"fails iff supplied value unrecognized" is false at `priority = ""`. -/
theorem list_empty_priority_counterexample :
    ALLOWED_PRIORITIES.contains (pyLower "") = false ∧
    list_tasks { tasks := [], nextId := 1 } 0 none none none (some "") none = .ok [] := by
  decide

/-- C5 (amended): the list operation fails (necessarily with HTTP 400) iff the
supplied priority filter is non-empty and unrecognized after lower-casing;
status and due values outside their enums (and the empty priority) never fail. -/
theorem list_tasks_error_characterization (s : Store) (today : Int) (se st : Option String)
    (aid : Option Nat) (pr : Option String) (du : Option String) :
    (∃ e, list_tasks s today se st aid pr du = .error e ∧ e.status = 400) ↔
    (∃ p, pr = some p ∧ p ≠ "" ∧ ALLOWED_PRIORITIES.contains (pyLower p) = false) := by
  rw [← list_tasks_rows_error_iff s today se st aid pr du]
  constructor
  · rintro ⟨e, he, h4⟩
    refine ⟨e, ?_, h4⟩
    simp only [list_tasks] at he
    split at he
    · cases he
      assumption
    · cases he
  · rintro ⟨e, he, h4⟩
    refine ⟨e, ?_, h4⟩
    simp [list_tasks, he]

/-! ### Update: step characterizations -/

theorem validate_priority_some_ok_iff (v r : String) :
    validate_priority (some v) = .ok r ↔
      (ALLOWED_PRIORITIES.contains (pyLower v) = true ∧ r = pyLower v) := by
  constructor
  · intro h
    simp only [validate_priority] at h
    split at h
    · cases h
      exact ⟨by assumption, rfl⟩
    · cases h
  · rintro ⟨hm, rfl⟩
    simp only [validate_priority]
    rw [hm]
    rfl

theorem validate_priority_error_status (w : Option String) (e : HTTPError)
    (h : validate_priority w = .error e) : e.status = 400 := by
  cases w with
  | none => simp [validate_priority] at h
  | some v =>
    simp only [validate_priority] at h
    split at h
    · cases h
    · cases h
      rfl

theorem applyTitle_ok (p : TaskUpdate) (task task1 : Task)
    (h : applyTitle p task = .ok task1) :
    task1 = { task with title := match p.title with | none => task.title | some v => pyStrip v } ∧
    (∀ v, p.title = some v → pyStrip v ≠ "") := by
  cases hp : p.title with
  | none =>
    simp only [applyTitle, hp] at h
    cases h
    exact ⟨rfl, fun v hv => by cases hv⟩
  | some v =>
    simp only [applyTitle, hp] at h
    split at h
    · cases h
    · cases h
      rename_i hne
      exact ⟨rfl, fun w hw => by cases hw; exact hne⟩

theorem applyTitle_error (p : TaskUpdate) (task : Task) (e : HTTPError)
    (h : applyTitle p task = .error e) : e.status = 400 := by
  cases hp : p.title with
  | none => simp [applyTitle, hp] at h
  | some v =>
    simp only [applyTitle, hp] at h
    split at h
    · cases h
      rfl
    · cases h

theorem applyAssignee_ok (p : TaskUpdate) (task task3 : Task)
    (h : applyAssignee p task = .ok task3) :
    task3 = { task with assignee_id := match p.assignee_id with | none => task.assignee_id | some a => some a } ∧
    (∀ a, p.assignee_id = some a → user_exists (some a) = true) := by
  cases hp : p.assignee_id with
  | none =>
    simp only [applyAssignee, hp] at h
    cases h
    exact ⟨rfl, fun a ha => by cases ha⟩
  | some a =>
    simp only [applyAssignee, hp] at h
    split at h
    · cases h
    · cases h
      rename_i hu
      refine ⟨rfl, fun b hb => ?_⟩
      cases hb
      simpa using hu

theorem applyAssignee_error (p : TaskUpdate) (task : Task) (e : HTTPError)
    (h : applyAssignee p task = .error e) : e.status = 400 := by
  cases hp : p.assignee_id with
  | none => simp [applyAssignee, hp] at h
  | some a =>
    simp only [applyAssignee, hp] at h
    split at h
    · cases h
      rfl
    · cases h

theorem applyPriority_ok (p : TaskUpdate) (task task5 : Task)
    (h : applyPriority p task = .ok task5) :
    task5 = { task with priority := match p.priority with | none => task.priority | some v => pyLower v } ∧
    (∀ v, p.priority = some v → ALLOWED_PRIORITIES.contains (pyLower v) = true) := by
  cases hp : p.priority with
  | none =>
    simp only [applyPriority, hp] at h
    cases h
    exact ⟨rfl, fun v hv => by cases hv⟩
  | some v =>
    simp only [applyPriority, hp] at h
    cases hval : validate_priority (some v) with
    | error e => rw [hval] at h; cases h
    | ok r =>
      rw [hval] at h
      cases h
      obtain ⟨hm, hr⟩ := (validate_priority_some_ok_iff v r).mp hval
      subst hr
      exact ⟨rfl, fun w hw => by cases hw; exact hm⟩

theorem applyPriority_error (p : TaskUpdate) (task : Task) (e : HTTPError)
    (h : applyPriority p task = .error e) : e.status = 400 := by
  cases hp : p.priority with
  | none => simp [applyPriority, hp] at h
  | some v =>
    simp only [applyPriority, hp] at h
    cases hval : validate_priority (some v) with
    | error e2 =>
      rw [hval] at h
      cases h
      exact validate_priority_error_status (some v) _ hval
    | ok r => rw [hval] at h; cases h

/-- A successful PATCH found the row, replaced it by `appliedTask`, and every
present field had passed its validation. -/
theorem update_ok_char (s : Store) (task_id : Nat) (p : TaskUpdate) (now : Nat) (s2 : Store)
    (h : update_task s task_id p now = .ok s2) :
    ∃ task, findTask s task_id = some task ∧
      s2 = { s with tasks := s.tasks.map (fun t =>
        if t.id == task_id then appliedTask task p now else t) } ∧
      (∀ v, p.title = some v → pyStrip v ≠ "") ∧
      (∀ a, p.assignee_id = some a → user_exists (some a) = true) ∧
      (∀ v, p.priority = some v → ALLOWED_PRIORITIES.contains (pyLower v) = true) := by
  unfold update_task at h
  cases hf : findTask s task_id with
  | none =>
    simp only [hf] at h
    exact Except.noConfusion h
  | some task0 =>
    simp only [hf] at h
    cases h1 : applyTitle p task0 with
    | error e =>
      simp only [h1] at h
      exact Except.noConfusion h
    | ok task1 =>
      simp only [h1] at h
      cases h3 : applyAssignee p (applyDescription p task1) with
      | error e =>
        simp only [h3] at h
        exact Except.noConfusion h
      | ok task3 =>
        simp only [h3] at h
        cases h5 : applyPriority p (applyCompleted p task3) with
        | error e =>
          simp only [h5] at h
          exact Except.noConfusion h
        | ok task5 =>
          simp only [h5, Except.ok.injEq] at h
          subst h
          obtain ⟨e1, hT⟩ := applyTitle_ok p task0 task1 h1
          obtain ⟨e3, hA⟩ := applyAssignee_ok p _ task3 h3
          obtain ⟨e5, hP⟩ := applyPriority_ok p _ task5 h5
          refine ⟨task0, rfl, ?_, hT, hA, hP⟩
          have hrow : { applyDueDate p task5 with updated_at := now } = appliedTask task0 p now := by
            subst e1 e3 e5
            cases ht : p.title <;> cases hd : p.description <;> cases ha : p.assignee_id <;>
              cases hc : p.completed <;> cases hpr : p.priority <;> cases hdd : p.due_date <;>
                simp [applyDescription, applyCompleted, applyDueDate, appliedTask, ht, hd, ha, hc, hpr, hdd]
          simp only [hrow]

theorem update_error_400 (s : Store) (task_id : Nat) (p : TaskUpdate) (now : Nat)
    (task : Task) (e : HTTPError)
    (hf : findTask s task_id = some task)
    (h : update_task s task_id p now = .error e) : e.status = 400 := by
  unfold update_task at h
  simp only [hf] at h
  cases h1 : applyTitle p task with
  | error e1 =>
    simp only [h1, Except.error.injEq] at h
    subst h
    exact applyTitle_error p task _ h1
  | ok task1 =>
    simp only [h1] at h
    cases h3 : applyAssignee p (applyDescription p task1) with
    | error e3 =>
      simp only [h3, Except.error.injEq] at h
      subst h
      exact applyAssignee_error p _ _ h3
    | ok task3 =>
      simp only [h3] at h
      cases h5 : applyPriority p (applyCompleted p task3) with
      | error e5 =>
        simp only [h5, Except.error.injEq] at h
        subst h
        exact applyPriority_error p _ _ h5
      | ok task5 =>
        simp only [h5] at h
        exact Except.noConfusion h

/-- C2: on an existing task, a PATCH any of whose present fields fails
validation (empty trimmed title, unknown assignee, unrecognized priority)
raises HTTP 400 and persists nothing: the handler leaves the store exactly as
it was, even though earlier fields had been assigned to the in-memory session
object before the exception. -/
theorem update_validation_atomic (s : Store) (task_id : Nat) (p : TaskUpdate) (now : Nat)
    (task : Task)
    (hf : findTask s task_id = some task)
    (hbad : titleBad p ∨ assigneeBad p ∨ priorityBad p) :
    failsWith400 (update_task s task_id p now) ∧ run_update s task_id p now = s := by
  cases hres : update_task s task_id p now with
  | ok s2 =>
    exfalso
    obtain ⟨t0, hf0, -, hT, hA, hP⟩ := update_ok_char _ _ _ _ _ hres
    rcases hbad with ⟨v, hv, hbadv⟩ | ⟨a, ha, hbada⟩ | ⟨v, hv, hbadv⟩
    · exact (hT v hv) hbadv
    · rw [hA a ha] at hbada
      cases hbada
    · rw [hP v hv] at hbadv
      cases hbadv
  | error e =>
    constructor
    · show e.status = 400
      exact update_error_400 s task_id p now task e hf hres
    · simp [run_update, hres]

/-- Witness for C2: updating `demoTask` with a valid new title but the
unrecognized priority `"urgent"` fails with 400 and leaves the store intact. -/
theorem update_validation_atomic_witness :
    failsWith400 (update_task demoStore 1 (TaskUpdate.mk (some "New title") none none none (some "urgent") none) 5) ∧
      run_update demoStore 1 (TaskUpdate.mk (some "New title") none none none (some "urgent") none) 5 = demoStore :=
  update_validation_atomic demoStore 1 _ 5 demoTask (by decide)
    (.inr (.inr ⟨"urgent", rfl, by decide⟩))

theorem RawField.nullToAbsent_toOption {α : Type} (x : RawField α) :
    x.nullToAbsent.toOption = x.toOption := by
  cases x <;> rfl

theorem parseUpdate_nullsToAbsent (r : RawUpdate) :
    parseUpdate (nullsToAbsent r) = parseUpdate r := by
  cases r
  simp [parseUpdate, nullsToAbsent, RawField.nullToAbsent_toOption]

/-- Replacing the matching row rewrites what the primary-key lookup finds. -/
theorem find_replace (l : List Task) (task_id : Nat) (task7 task : Task)
    (h7 : (task7.id == task_id) = true)
    (h : l.find? (fun t => t.id == task_id) = some task) :
    (l.map (fun t => if t.id == task_id then task7 else t)).find?
      (fun t => t.id == task_id) = some task7 := by
  induction l with
  | nil => cases h
  | cons hd tl ih =>
    cases hh : (hd.id == task_id) with
    | true =>
      simp only [List.map_cons]
      rw [if_pos hh]
      exact @List.find?_cons_of_pos Task (fun t => t.id == task_id) task7
        (tl.map (fun t => if t.id == task_id then task7 else t)) h7
    | false =>
      have hh2 : ¬((hd.id == task_id) = true) := by simp [hh]
      simp only [List.map_cons]
      rw [if_neg hh2]
      rw [@List.find?_cons_of_neg Task (fun t => t.id == task_id) hd
        (tl.map (fun t => if t.id == task_id then task7 else t)) hh2]
      rw [@List.find?_cons_of_neg Task (fun t => t.id == task_id) hd tl hh2] at h
      exact ih h

/-- C3 counterexample: a PATCH whose only field is an explicit `null` due date
leaves the stored due date untouched and is indistinguishable from the
all-absent PATCH: pydantic parses `Optional[...] = None` fields so that an
explicit `null` becomes `None`, which the endpoint then skips — contradicting
the claim that present-with-null is treated as present rather than untouched. -/
theorem update_null_treated_as_absent :
    rawNullDue.due_date = RawField.nullv ∧
    update_task_raw demoStore 1 rawNullDue 5 = update_task_raw demoStore 1 {} 5 ∧
    update_task_raw demoStore 1 rawNullDue 5 =
      .ok { tasks := [{ demoTask with updated_at := 5 }], nextId := 2 } ∧
    ({ demoTask with updated_at := 5 }).due_date = some 10 := by
  refine ⟨rfl, rfl, by decide, rfl⟩

/-- C3 (amended): each of the six updatable fields is either absent or
explicitly null — both parse to `None` and leave the stored field untouched —
or present with a non-null value, in which case it is applied (including the
falsy `completed = false`): on success the stored row is exactly `appliedTask`,
which keeps every `none` field and applies every `some` field. -/
theorem update_field_presence (s : Store) (task_id : Nat) (r : RawUpdate) (now : Nat) :
    update_task_raw s task_id r now = update_task_raw s task_id (nullsToAbsent r) now ∧
    (∀ task s2, findTask s task_id = some task →
      update_task_raw s task_id r now = .ok s2 →
      findTask s2 task_id = some (appliedTask task (parseUpdate r) now)) := by
  constructor
  · unfold update_task_raw
    rw [parseUpdate_nullsToAbsent]
  · intro task s2 hf hok
    obtain ⟨task0, hf0, hs2, -, -, -⟩ := update_ok_char s task_id (parseUpdate r) now s2 hok
    rw [hf] at hf0
    injection hf0 with hf0
    subst hf0
    subst hs2
    have hf2 : List.find? (fun t => t.id == task_id) s.tasks = some task := hf
    have hid : (task.id == task_id) = true :=
      @List.find?_some Task (fun t => t.id == task_id) task s.tasks hf2
    exact find_replace s.tasks task_id _ task hid hf2

/-- Witness for C3: toggling `demoTask.completed` to the falsy value `false`. -/
theorem update_field_presence_witness :
    findTask demoStoreToggled 1 = some (appliedTask demoTask (parseUpdate rawToggle) 9) :=
  (update_field_presence demoStore 1 rawToggle 9).2 demoTask demoStoreToggled
    (by decide) (by decide)

/-- C8: for an existing task, a successful PATCH containing only `completed`
leaves title, description, assignee_id, priority, due_date and created_at
unchanged, and every successful PATCH sets `updated_at` to the call's current
time unconditionally. -/
theorem update_completed_frame (s : Store) (task_id : Nat) (p : TaskUpdate) (now : Nat)
    (c : Bool) (task : Task) (s2 : Store)
    (hf : findTask s task_id = some task)
    (hok : update_task s task_id p now = .ok s2) :
    (p = TaskUpdate.mk none none none (some c) none none →
      findTask s2 task_id = some { task with completed := c, updated_at := now }) ∧
    (findTask s2 task_id).map Task.updated_at = some now := by
  obtain ⟨task0, hf0, hs2, -, -, -⟩ := update_ok_char s task_id p now s2 hok
  rw [hf] at hf0
  injection hf0 with hf0
  subst hf0
  subst hs2
  have hf2 : List.find? (fun t => t.id == task_id) s.tasks = some task := hf
  have hid : (task.id == task_id) = true :=
    @List.find?_some Task (fun t => t.id == task_id) task s.tasks hf2
  have hfind := find_replace s.tasks task_id (appliedTask task p now) task hid hf2
  constructor
  · intro hp
    subst hp
    exact hfind
  · have hfind2 : findTask { s with tasks := s.tasks.map (fun t =>
        if t.id == task_id then appliedTask task p now else t) } task_id =
        some (appliedTask task p now) := hfind
    rw [hfind2]
    rfl

/-- Witness for C8 at `demoStore`, toggling `completed` to `false` at time 9. -/
theorem update_completed_frame_witness :
    findTask demoStoreToggled 1 = some { demoTask with completed := false, updated_at := 9 } ∧
    (findTask demoStoreToggled 1).map Task.updated_at = some 9 :=
  ⟨(update_completed_frame demoStore 1 (TaskUpdate.mk none none none (some false) none none) 9
      false demoTask demoStoreToggled (by decide) (by decide)).1 rfl,
   (update_completed_frame demoStore 1 (TaskUpdate.mk none none none (some false) none none) 9
      false demoTask demoStoreToggled (by decide) (by decide)).2⟩

/-- C10: a priority filter equal to the empty string is falsy in Python, so no
validation runs and no filter applies: the call never fails and returns exactly
what the call with an absent priority parameter returns. -/
theorem list_empty_priority_eq_absent :
    ∀ (s : Store) (today : Int) (se st : Option String) (aid : Option Nat) (du : Option String),
      list_tasks s today se st aid (some "") du = list_tasks s today se st aid none du ∧
      ∃ rows, list_tasks s today se st aid (some "") du = .ok rows := by
  intro s today se st aid du
  constructor
  · rfl
  · exact ⟨_, rfl⟩

/-! ### The list pipeline: each where-clause is a row filter -/

theorem filterSearch_eq (se : Option String) (rows : List Task) :
    filterSearch se rows = rows.filter (searchPred se) := by
  cases se with
  | none =>
    show rows = rows.filter (searchPred none)
    symm
    rw [List.filter_eq_self]
    intro a ha
    rfl
  | some s =>
    by_cases hs : s = ""
    · subst hs
      show rows = rows.filter (searchPred (some ""))
      symm
      rw [List.filter_eq_self]
      intro a ha
      rfl
    · simp only [filterSearch, if_neg hs]
      apply List.filter_congr
      intro t ht
      simp [searchPred, hs]

theorem filterStatus_eq (st : Option String) (rows : List Task) :
    filterStatus st rows = rows.filter (statusPred st) := by
  by_cases h1 : st = some "complete"
  · subst h1
    rfl
  · by_cases h2 : st = some "incomplete"
    · subst h2
      rfl
    · simp only [filterStatus, if_neg h1, if_neg h2]
      symm
      rw [List.filter_eq_self]
      intro a ha
      simp [statusPred, h1, h2]

theorem filterAssignee_eq (aid : Option Nat) (rows : List Task) :
    filterAssignee aid rows = rows.filter (assigneePred aid) := by
  cases aid with
  | none =>
    show rows = rows.filter (assigneePred none)
    symm
    rw [List.filter_eq_self]
    intro a ha
    rfl
  | some x => rfl

theorem filterPriority_ok_eq (pr : Option String) (rows0 rows : List Task)
    (h : filterPriority pr rows0 = .ok rows) :
    rows = rows0.filter (priorityPred pr) := by
  cases pr with
  | none =>
    injection h with h
    subst h
    symm
    rw [List.filter_eq_self]
    intro a ha
    rfl
  | some p =>
    by_cases hp : p = ""
    · subst hp
      injection h with h
      subst h
      symm
      rw [List.filter_eq_self]
      intro a ha
      rfl
    · simp only [filterPriority, if_neg hp] at h
      cases hval : validate_priority (some p) with
      | error e =>
        rw [hval] at h
        exact Except.noConfusion h
      | ok r =>
        rw [hval] at h
        injection h with h
        subst h
        obtain ⟨hm, hr⟩ := (validate_priority_some_ok_iff p r).mp hval
        subst hr
        apply List.filter_congr
        intro t ht
        simp [priorityPred, hp]

theorem filterDue_eq (du : Option String) (today : Int) (rows : List Task) :
    filterDue du today rows = rows.filter (duePred du today) := by
  by_cases h1 : du = some "overdue"
  · subst h1
    simp only [filterDue, if_pos rfl]
    rw [List.filter_filter]
    apply List.filter_congr
    intro t ht
    cases hdd : t.due_date <;> simp [duePred, dueLT, hdd]
  · by_cases h2 : du = some "today"
    · subst h2
      rfl
    · by_cases h3 : du = some "upcoming"
      · subst h3
        simp only [filterDue,
          if_neg (show ¬((some "upcoming" : Option String) = some "overdue") by decide),
          if_neg (show ¬((some "upcoming" : Option String) = some "today") by decide),
          if_pos rfl]
        rw [List.filter_filter]
        apply List.filter_congr
        intro t ht
        cases hdd : t.due_date <;> simp [duePred, dueGT, hdd]
      · simp only [filterDue, if_neg h1, if_neg h2, if_neg h3]
        symm
        rw [List.filter_eq_self]
        intro a ha
        simp [duePred, h1, h2, h3]

/-- A successful list call returns the base rows filtered by all five
predicates, sorted by `taskOrd`. -/
theorem list_tasks_rows_ok_char (s : Store) (today : Int) (se st : Option String)
    (aid : Option Nat) (pr : Option String) (du : Option String) (rows : List Task)
    (h : list_tasks_rows s today se st aid pr du = .ok rows) :
    rows = List.insertionSort taskOrd (s.tasks.filter (rowPred today se st aid pr du)) := by
  unfold list_tasks_rows at h
  cases hfp : filterPriority pr (filterAssignee aid (filterStatus st (filterSearch se s.tasks))) with
  | error e =>
    simp only [hfp] at h
    exact Except.noConfusion h
  | ok rows0 =>
    simp only [hfp, Except.ok.injEq] at h
    subst h
    have h0 := filterPriority_ok_eq pr _ rows0 hfp
    subst h0
    congr 1
    rw [filterDue_eq, filterSearch_eq, filterStatus_eq, filterAssignee_eq]
    simp only [List.filter_filter]
    rfl

/-- C4: every successful list result is sorted with all incomplete rows before
all completed rows and by created_at descending within each group, and is a
permutation of the rows matching the filters; on the spec's example store
(A incomplete first, B complete second, C incomplete third) the full listing
is exactly [C, A, B]. -/
theorem list_ordering (s : Store) (today : Int) (se st : Option String) (aid : Option Nat)
    (pr : Option String) (du : Option String) (rows : List Task)
    (h : list_tasks_rows s today se st aid pr du = .ok rows) :
    List.Pairwise taskOrd rows ∧
    List.Perm rows (s.tasks.filter (rowPred today se st aid pr du)) ∧
    list_tasks_rows storeABC 100 none none none none none = .ok [taskC, taskA, taskB] := by
  have hchar := list_tasks_rows_ok_char s today se st aid pr du rows h
  subst hchar
  refine ⟨List.sorted_insertionSort taskOrd _, List.perm_insertionSort taskOrd _, ?_⟩
  decide

/-- Witness for C4 at the spec's concrete example store. -/
theorem list_ordering_witness :
    List.Pairwise taskOrd [taskC, taskA, taskB] ∧
    List.Perm [taskC, taskA, taskB] (storeABC.tasks.filter (rowPred 100 none none none none none)) ∧
    list_tasks_rows storeABC 100 none none none none none = .ok [taskC, taskA, taskB] :=
  list_ordering storeABC 100 none none none none none [taskC, taskA, taskB] (by decide)

/-- Membership in a successful list result is membership in the table plus all
five filter predicates. -/
theorem list_rows_mem_iff (s : Store) (today : Int) (se st : Option String)
    (aid : Option Nat) (pr : Option String) (du : Option String) (rows : List Task) (t : Task)
    (h : list_tasks_rows s today se st aid pr du = .ok rows) :
    t ∈ rows ↔ (t ∈ s.tasks ∧ rowPred today se st aid pr du t = true) := by
  have hchar := list_tasks_rows_ok_char s today se st aid pr du rows h
  subst hchar
  rw [List.mem_insertionSort]
  exact List.mem_filter

/-- C6: `today` is a single value per call, used for every row; due=overdue
returns exactly the otherwise-matching rows whose due date is non-null and
strictly before today, due=today exactly those equal to today, due=upcoming
exactly those non-null and strictly after today, and rows with a null due date
are in none of the three buckets. -/
theorem list_due_buckets (s : Store) (today : Int) (se st : Option String)
    (aid : Option Nat) (pr : Option String) (t : Task) (rowsO rowsT rowsU : List Task)
    (hO : list_tasks_rows s today se st aid pr (some "overdue") = .ok rowsO)
    (hT : list_tasks_rows s today se st aid pr (some "today") = .ok rowsT)
    (hU : list_tasks_rows s today se st aid pr (some "upcoming") = .ok rowsU) :
    (t ∈ rowsO ↔ (t ∈ s.tasks ∧ rowPred today se st aid pr none t = true ∧
       ∃ d, t.due_date = some d ∧ d < today)) ∧
    (t ∈ rowsT ↔ (t ∈ s.tasks ∧ rowPred today se st aid pr none t = true ∧
       t.due_date = some today)) ∧
    (t ∈ rowsU ↔ (t ∈ s.tasks ∧ rowPred today se st aid pr none t = true ∧
       ∃ d, t.due_date = some d ∧ today < d)) ∧
    (t.due_date = none → ¬t ∈ rowsO ∧ ¬t ∈ rowsT ∧ ¬t ∈ rowsU) := by
  rw [list_rows_mem_iff s today se st aid pr (some "overdue") rowsO t hO]
  rw [list_rows_mem_iff s today se st aid pr (some "today") rowsT t hT]
  rw [list_rows_mem_iff s today se st aid pr (some "upcoming") rowsU t hU]
  cases hdd : t.due_date with
  | none =>
    simp [rowPred, duePred, dueLT, dueEQ, dueGT, hdd]
  | some d =>
    simp [rowPred, duePred, dueLT, dueEQ, dueGT, hdd, beq_iff_eq]
    tauto

/-- Witness for C6 at `storeDue` with today = 10: the overdue bucket is exactly
[taskPast], the today bucket exactly [taskToday], the upcoming bucket empty. -/
theorem list_due_buckets_witness :
    (taskPast ∈ [taskPast] ↔ (taskPast ∈ storeDue.tasks ∧
       rowPred 10 none none none none none taskPast = true ∧
       ∃ d, taskPast.due_date = some d ∧ d < 10)) ∧
    (taskPast ∈ [taskToday] ↔ (taskPast ∈ storeDue.tasks ∧
       rowPred 10 none none none none none taskPast = true ∧
       taskPast.due_date = some 10)) ∧
    (taskPast ∈ ([] : List Task) ↔ (taskPast ∈ storeDue.tasks ∧
       rowPred 10 none none none none none taskPast = true ∧
       ∃ d, taskPast.due_date = some d ∧ 10 < d)) ∧
    (taskPast.due_date = none →
      ¬taskPast ∈ [taskPast] ∧ ¬taskPast ∈ [taskToday] ∧ ¬taskPast ∈ ([] : List Task)) :=
  list_due_buckets storeDue 10 none none none none taskPast [taskPast] [taskToday] []
    (by decide) (by decide) (by decide)

/-! ### Reachability invariants -/

theorem stripChars_not_all_ws (l : List Char) (h : stripChars l ≠ []) :
    (stripChars l).all Char.isWhitespace = false := by
  unfold stripChars at h ⊢
  have hlast := List.rdropWhile_last_not Char.isWhitespace (l.dropWhile Char.isWhitespace) h
  by_contra hall
  rw [Bool.not_eq_false] at hall
  rw [List.all_eq_true] at hall
  exact hlast (hall _ (List.getLast_mem h))

theorem pyStrip_title_inv (v : String) (h : pyStrip v ≠ "") :
    pyStrip v ≠ "" ∧ (pyStrip v).data.all Char.isWhitespace = false := by
  refine ⟨h, ?_⟩
  apply stripChars_not_all_ws
  intro hnil
  exact h (congrArg String.mk hnil)

/-- A successful create appended one validated row. -/
theorem create_ok_char (s : Store) (payload : TaskCreate) (now : Nat) (s2 : Store) (nid : Nat)
    (h : create_task s payload now = .ok (s2, nid)) :
    ∃ pr, validate_priority (some payload.priority) = .ok pr ∧
      pyStrip payload.title ≠ "" ∧
      user_exists payload.assignee_id = true ∧
      s2.tasks = s.tasks ++
        [{ id := s.nextId
           title := pyStrip payload.title
           description := pyStrip payload.description
           completed := false
           assignee_id := payload.assignee_id
           priority := pr
           due_date := payload.due_date
           created_at := now
           updated_at := now }] := by
  unfold create_task at h
  split at h
  · exact Except.noConfusion h
  · split at h
    · exact Except.noConfusion h
    · rename_i h1 h2
      cases hval : validate_priority (some payload.priority) with
      | error e =>
        simp only [hval] at h
        exact Except.noConfusion h
      | ok pr =>
        simp only [hval, Except.ok.injEq, Prod.mk.injEq] at h
        obtain ⟨ha, -⟩ := h
        refine ⟨pr, rfl, h1, by simpa using h2, ?_⟩
        rw [← ha]

/-- A successful delete kept exactly the rows with a different id. -/
theorem delete_ok_char (s : Store) (task_id : Nat) (s2 : Store)
    (h : delete_task s task_id = .ok s2) :
    s2.tasks = s.tasks.filter (fun t => !(t.id == task_id)) := by
  unfold delete_task at h
  cases hf : findTask s task_id with
  | none =>
    simp only [hf] at h
    exact Except.noConfusion h
  | some t0 =>
    simp only [hf, Except.ok.injEq] at h
    rw [← h]

/-- The row written by a successful PATCH keeps all four invariants, provided
the clock has not run backwards past its creation time. -/
theorem appliedTask_inv (task : Task) (p : TaskUpdate) (now : Nat)
    (hInv : TaskInv task) (hc : task.created_at ≤ now)
    (hT : ∀ v, p.title = some v → pyStrip v ≠ "")
    (hA : ∀ a, p.assignee_id = some a → user_exists (some a) = true)
    (hP : ∀ v, p.priority = some v → ALLOWED_PRIORITIES.contains (pyLower v) = true) :
    TaskInv (appliedTask task p now) := by
  obtain ⟨h1, h2, h3, h4, h5⟩ := hInv
  refine ⟨?_, ?_, ?_, ?_, ?_⟩
  · show (match p.title with | none => task.title | some v => pyStrip v) ≠ ""
    cases hp : p.title with
    | none => exact h1
    | some v => exact (pyStrip_title_inv v (hT v hp)).1
  · show (match p.title with | none => task.title | some v => pyStrip v).data.all
      Char.isWhitespace = false
    cases hp : p.title with
    | none => exact h2
    | some v => exact (pyStrip_title_inv v (hT v hp)).2
  · show (match p.assignee_id with | none => task.assignee_id | some a => some a) = none ∨
      user_exists (match p.assignee_id with | none => task.assignee_id | some a => some a) = true
    cases hp : p.assignee_id with
    | none => exact h3
    | some a => exact Or.inr (hA a hp)
  · show ALLOWED_PRIORITIES.contains
      (match p.priority with | none => task.priority | some v => pyLower v) = true
    cases hp : p.priority with
    | none => exact h4
    | some v => exact hP v hp
  · show task.created_at ≤ now
    exact hc

/-- Every reachable state satisfies the strengthened invariant. -/
theorem reach_inv (st : AppState) (h : Reach st) : StInv st := by
  induction h with
  | init =>
    intro t ht
    replace ht : t ∈ ([] : List Task) := ht
    cases ht
  | step a b hra hstep ih =>
    cases hstep with
    | create payload now s2 nid hclock hok =>
      obtain ⟨pr, hval, htitle, huser, hs2⟩ := create_ok_char a.store payload now s2 nid hok
      intro t ht
      replace ht : t ∈ s2.tasks := ht
      rw [hs2] at ht
      rw [List.mem_append] at ht
      rcases ht with ht | ht
      · obtain ⟨hInv, hcr⟩ := ih t ht
        refine ⟨hInv, ?_⟩
        show t.created_at ≤ now
        exact hcr.trans hclock
      · rw [List.mem_singleton] at ht
        subst ht
        refine ⟨⟨?_, ?_, ?_, ?_, ?_⟩, ?_⟩
        · exact (pyStrip_title_inv _ htitle).1
        · exact (pyStrip_title_inv _ htitle).2
        · exact Or.inr huser
        · exact validate_priority_ok_mem _ _ hval
        · exact Nat.le_refl now
        · show now ≤ now
          exact Nat.le_refl now
    | update task_id payload now s2 hclock hok =>
      obtain ⟨task0, hf0, hs2, hT, hA, hP⟩ := update_ok_char a.store task_id payload now s2 hok
      intro t ht
      replace ht : t ∈ s2.tasks := ht
      rw [hs2] at ht
      replace ht : t ∈ a.store.tasks.map (fun u =>
        if u.id == task_id then appliedTask task0 payload now else u) := ht
      rw [List.mem_map] at ht
      obtain ⟨u, hu, hut⟩ := ht
      by_cases hid : (u.id == task_id) = true
      · rw [if_pos hid] at hut
        subst hut
        have hf2 : List.find? (fun x => x.id == task_id) a.store.tasks = some task0 := hf0
        obtain ⟨hInv0, hcr0⟩ := ih task0 (List.mem_of_find?_eq_some hf2)
        have hcnow : task0.created_at ≤ now := hcr0.trans hclock
        refine ⟨appliedTask_inv task0 payload now hInv0 hcnow hT hA hP, ?_⟩
        show task0.created_at ≤ now
        exact hcnow
      · rw [if_neg hid] at hut
        subst hut
        obtain ⟨hInv, hcr⟩ := ih u hu
        exact ⟨hInv, hcr.trans hclock⟩
    | delete task_id s2 hok =>
      have hs2 := delete_ok_char a.store task_id s2 hok
      intro t ht
      replace ht : t ∈ s2.tasks := ht
      rw [hs2] at ht
      exact ih t (List.mem_of_mem_filter ht)

/-- C9: every task stored in any state reachable through successful create,
update and delete calls has a non-empty, non-whitespace-only title, an
assignee that is null or in the directory, a priority among low/medium/high,
and `updated_at ≥ created_at`. -/
theorem reachable_task_invariants (st : AppState) (t : Task)
    (h : Reach st) (ht : t ∈ st.store.tasks) :
    t.title ≠ "" ∧ t.title.data.all Char.isWhitespace = false ∧
    (t.assignee_id = none ∨ user_exists t.assignee_id = true) ∧
    ALLOWED_PRIORITIES.contains t.priority = true ∧
    t.created_at ≤ t.updated_at :=
  (reach_inv st h t ht).1

/-- Witness for C9: the state reached by one successful create call at time 5. -/
theorem reachable_task_invariants_witness :
    demoCreated.title ≠ "" ∧ demoCreated.title.data.all Char.isWhitespace = false ∧
    (demoCreated.assignee_id = none ∨ user_exists demoCreated.assignee_id = true) ∧
    ALLOWED_PRIORITIES.contains demoCreated.priority = true ∧
    demoCreated.created_at ≤ demoCreated.updated_at := by
  have hstep : Step ⟨{ tasks := [], nextId := 1 }, 0⟩
      ⟨{ tasks := [demoCreated], nextId := 2 }, 5⟩ :=
    Step.create ⟨{ tasks := [], nextId := 1 }, 0⟩ demoCreatePayload 5
      { tasks := [demoCreated], nextId := 2 } 1 (by decide) (by decide)
  exact reachable_task_invariants ⟨{ tasks := [demoCreated], nextId := 2 }, 5⟩ demoCreated
    (Reach.step _ _ Reach.init hstep) (by decide)

end TaskTracker
